import Mathlib

/-!
Verification of the deployment reconciliation core of the `sisatech/api`
Go SDK (packages `api`, `apps`, `deploy`): the `Manager` / `Pool` /
`DeploymentGoal` / `DeploymentState` components.

The embedding is shallow.  Remote HTTP calls (`Push`, `CreateDeployment`,
`DeleteDeployment`, `GetDeployment`) are abstracted by an outcome
parameter (`Except Err Unit`, or an outcome type that also covers the
60-second timeout branch), since the remote server is an external
collaborator.  Go `nil`-pointer dereference (a panic) is modelled by an
outer `Option`: a result of `none` is a fault, `some r` a normal return.
Go maps are modelled as association lists; insertion overwrites, lookup
and deletion are by key, and iteration-order-sensitive output (JSON
marshalling, `Instances`) sorts keys exactly as the Go runtime does.
-/

namespace SisatechApi

/-- Go errors in this code are `errors.New` values; claims only inspect their
message, so errors are modelled by their message string. -/
abbrev Err := String

/-- `ErrManagerClosed = errors.New("manager closed")` from the deploy package. -/
def errManagerClosed : Err := "manager closed"

/-- `ErrInstanceNotInPool = errors.New("instance id not found in pool")`. -/
def errInstanceNotInPool : Err := "instance id not found in pool"

/-- `errors.New("cleanup timed out")`, produced by the timeout branches of
`Pool.Close` and `Pool.Update`. -/
def errCleanupTimedOut : Err := "cleanup timed out"

/-- Lookup in a Go map modelled as an association list (`m[k]`, with the
`ok` flag given by `Option.isSome`). -/
def assocLookup {α : Type} : List (String × α) → String → Option α
  | [], _ => none
  | (k2, v) :: rest, k => if k2 = k then some v else assocLookup rest k

/-- Deletion from a Go map (`delete(m, k)`): removes every binding of `k`. -/
def assocErase {α : Type} : List (String × α) → String → List (String × α)
  | [], _ => []
  | (k2, v) :: rest, k =>
    if k2 = k then assocErase rest k else (k2, v) :: assocErase rest k

/-- Insertion into a Go map (`m[k] = v`): overwrites any existing binding. -/
def assocInsert {α : Type} (m : List (String × α)) (k : String) (v : α) :
    List (String × α) :=
  (k, v) :: assocErase m k

/-- Insert a string into an already-sorted list, keeping it sorted. -/
def insertSorted (s : String) : List String → List String
  | [] => [s]
  | t :: rest => if t < s then t :: insertSorted s rest else s :: t :: rest

/-- `sort.Strings` / the alphabetical key order used by Go's `json.Marshal`
on a `map[string]...`, modelled as insertion sort. -/
def sortStrings : List String → List String
  | [] => []
  | s :: rest => insertSorted s (sortStrings rest)

/-- `deploy.VM`: the instance specification attached to a goal state. -/
structure VM where
  Platform : String
  App : String
  Version : String
deriving DecidableEq, Repr

/-- `deploy.InstanceStatus`: information returned about an instance by VMS. -/
structure InstanceStatus where
  Deployer : String
  App : String
  Version : String
  Hostname : String
  IP : String
  URLs : List String
deriving DecidableEq, Repr

/-- The Go zero value `InstanceStatus{}` (the `nil` slice is modelled as `[]`),
which `Pool.Status` returns for instances in the goal state only. -/
def InstanceStatus.zero : InstanceStatus :=
  { Deployer := "", App := "", Version := "", Hostname := "", IP := "", URLs := [] }

/-- `apps.SpawnArgs`. -/
structure SpawnArgs where
  Platform : String
  App : String
  Version : String
deriving DecidableEq, Repr

/-- Value-level view of one `apps.Pool`.  `mgrClosed` is the value of
`p.mgr.closed` at the time of the call; `goal`/`state` are the entry maps of
`p.goal`/`p.state`, with `none` standing for a `nil` pointer (as after
`Pool.Close`). -/
structure PoolV where
  mgrClosed : Bool
  org : String
  name : String
  goal : Option (List (String × VM))
  state : Option (List (String × InstanceStatus))
deriving DecidableEq, Repr

/-- `Pool.Status(id)`: look `id` up in observed state; if absent, an entry in
goal state yields the zero status, otherwise `ErrInstanceNotInPool`.
Dereferencing a `nil` state or goal pointer is the fault `none`. -/
def PoolV.Status (p : PoolV) (id : String) : Option (Except Err InstanceStatus) :=
  match p.state with
  | none => none
  | some st =>
    match assocLookup st id with
    | some v => some (Except.ok v)
    | none =>
      match p.goal with
      | none => none
      | some g =>
        match assocLookup g id with
        | some _ => some (Except.ok InstanceStatus.zero)
        | none => some (Except.error errInstanceNotInPool)

/-- `Pool.Instances()`: the alphabetized list of goal-state keys; faults on a
`nil` goal pointer. -/
def PoolV.Instances (p : PoolV) : Option (List String) :=
  match p.goal with
  | none => none
  | some g => some (sortStrings (g.map Prod.fst))

/-- `Pool.Spawn(args)` with the generated random identifier `id` and the
outcome of `g.Push` supplied as parameters.  Mirrors the source: check
`p.mgr.closed`; copy the goal map; attach the new `VM` to the copy; push the
copy; on push failure return the error with `p.goal` untouched; on success
swap `p.goal` to the copy and return `id`. -/
def PoolV.Spawn (p : PoolV) (args : SpawnArgs) (id : String)
    (pushResult : Except Err Unit) : Option (Except Err String × PoolV) :=
  if p.mgrClosed then some (Except.error errManagerClosed, p)
  else
    match p.goal with
    | none => none
    | some g =>
      let g2 := assocInsert g id
        { Platform := args.Platform, App := args.App, Version := args.Version }
      match pushResult with
      | Except.error e => some (Except.error e, p)
      | Except.ok _ => some (Except.ok id, { p with goal := some g2 })

/-- `Pool.Destroy(id)` with the outcome of `p.goal.Push` supplied as a
parameter.  Mirrors the source: check `p.mgr.closed`; detach `id` from the
current goal map in place; call `Push` and DISCARD its result (the source has
`p.goal.Push(...)` on a line of its own); return `nil`. -/
def PoolV.Destroy (p : PoolV) (id : String) (_pushResult : Except Err Unit) :
    Option (Except Err Unit × PoolV) :=
  if p.mgrClosed then some (Except.error errManagerClosed, p)
  else
    match p.goal with
    | none => none
    | some g => some (Except.ok (), { p with goal := some (assocErase g id) })

/-- Outcome of the supervised `GetDeployment` fetch inside `Pool.Update`:
either the 60-second timer fires first, or the fetch completes with a result. -/
inductive FetchOutcome where
  | timeout
  | fetched (result : Except Err (List (String × InstanceStatus)))

/-- `Pool.Update()`: check `p.mgr.closed`; race the fetch against the
60-second timer.  Timeout returns `errors.New("cleanup timed out")` without
touching `p.state`; a fetch error is returned unchanged; a fetched state
replaces `p.state` wholesale. -/
def PoolV.Update (p : PoolV) (outcome : FetchOutcome) :
    Except Err Unit × PoolV :=
  if p.mgrClosed then (Except.error errManagerClosed, p)
  else
    match outcome with
    | FetchOutcome.timeout => (Except.error errCleanupTimedOut, p)
    | FetchOutcome.fetched (Except.error e) => (Except.error e, p)
    | FetchOutcome.fetched (Except.ok st) =>
        (Except.ok (), { p with state := some st })

/-- Outcome of the supervised `DeleteDeployment` call inside `Pool.Close`. -/
inductive DeleteOutcome where
  | timeout
  | done (result : Except Err Unit)

/-- `Pool.Close()`: race the remote delete against the 60-second timer.  On
timeout or delete failure the pool is returned unchanged with the error; on
success both state pointers are set to `nil` (the registry removal
`delete(p.mgr.pools, p.key())` is modelled at the manager level). -/
def PoolV.Close (p : PoolV) (outcome : DeleteOutcome) :
    Except Err Unit × PoolV :=
  match outcome with
  | DeleteOutcome.timeout => (Except.error errCleanupTimedOut, p)
  | DeleteOutcome.done (Except.error e) => (Except.error e, p)
  | DeleteOutcome.done (Except.ok _) =>
      (Except.ok (), { p with goal := none, state := none })

/-- `Pool.key()`: `fmt.Sprintf("%s::%s", p.org, p.name)`. -/
def poolKey (org name : String) : String := org ++ "::" ++ name

/-- Value-level view of one `deploy.Manager`: the closed flag and the pool
registry `map[string]*Pool` keyed by `Pool.key()`. -/
structure ManagerM where
  closed : Bool
  pools : List (String × PoolV)

/-- `Manager.NewPool(org, name)` with the outcome of `CreateDeployment`
supplied as a parameter.  Mirrors the source: fail if the manager is closed
(in the sequential model the optimistic check and the re-check under the lock
read the same flag and are merged); build the pool with empty goal and state
maps; REGISTER it in `m.pools`; then issue the remote create, whose failure is
returned without de-registering the pool. -/
def ManagerM.NewPool (m : ManagerM) (org name : String)
    (createResult : Except Err Unit) : Except Err PoolV × ManagerM :=
  if m.closed then (Except.error errManagerClosed, m)
  else
    let p : PoolV :=
      { mgrClosed := false, org := org, name := name,
        goal := some [], state := some [] }
    let m2 := { m with pools := assocInsert m.pools (poolKey org name) p }
    match createResult with
    | Except.error e => (Except.error e, m2)
    | Except.ok _ => (Except.ok p, m2)

/-- The loop body of `Manager.Close`: walk the snapshot of the registry,
closing each pool with its `DeleteOutcome` (keyed by `Pool.key()`).  A
successful `Pool.Close` deletes the pool from the live registry; the FIRST
error is returned at once, abandoning the rest of the snapshot.  The third
component records, in order, the keys of the pools whose `Close` was
attempted. -/
def closeLoop (outcome : String → DeleteOutcome) :
    List (String × PoolV) → List (String × PoolV) → List String →
    Except Err Unit × List (String × PoolV) × List String
  | [], registry, attempted => (Except.ok (), registry, attempted)
  | (k, p) :: rest, registry, attempted =>
    match PoolV.Close p (outcome k) with
    | (Except.error e, _) => (Except.error e, registry, attempted ++ [k])
    | (Except.ok _, _) =>
        closeLoop outcome rest (assocErase registry k) (attempted ++ [k])

/-- `Manager.Close()`: set the closed flag, snapshot the pool list, then run
the close loop over the snapshot. -/
def ManagerM.Close (m : ManagerM) (outcome : String → DeleteOutcome) :
    Except Err Unit × ManagerM × List String :=
  let r := closeLoop outcome m.pools m.pools []
  (r.1, { m with closed := true, pools := r.2.1 }, r.2.2)

/-- The error, if any, that `Pool.Close` yields for a given delete outcome. -/
def deleteErr : DeleteOutcome → Option Err
  | DeleteOutcome.timeout => some errCleanupTimedOut
  | DeleteOutcome.done (Except.error e) => some e
  | DeleteOutcome.done (Except.ok _) => none

/-!
Pointer-level view of `DeploymentGoal` (deploy/deployment.go).  A goal is a
`*DeploymentGoal`, a pointer to a mutable `children` map; `Attach` and
`Detach` mutate the pointed-to map in place, while `Copy` allocates a fresh
map holding the same entries.  The heap is the list of allocated maps and a
pointer is an index into it.
-/

/-- The heap of allocated `DeploymentGoal` children maps. -/
structure GoalHeap where
  cells : List (List (String × VM))

/-- The entries of the goal pointed to by `ptr` (unallocated pointers read as
empty; theorems only use valid pointers). -/
def GoalHeap.entries (h : GoalHeap) (ptr : Nat) : List (String × VM) :=
  h.cells.getD ptr []

/-- `DeploymentGoal.Attach(id, vm)`: `g.children[id] = vm`, mutating the
pointed-to map in place. -/
def GoalHeap.attach (h : GoalHeap) (ptr : Nat) (id : String) (vm : VM) :
    GoalHeap :=
  ⟨h.cells.set ptr (assocInsert (h.entries ptr) id vm)⟩

/-- `DeploymentGoal.Detach(id)`: `delete(g.children, id)`, mutating the
pointed-to map in place. -/
def GoalHeap.detach (h : GoalHeap) (ptr : Nat) (id : String) : GoalHeap :=
  ⟨h.cells.set ptr (assocErase (h.entries ptr) id)⟩

/-- `DeploymentGoal.Copy()`: allocate a fresh `DeploymentGoal` whose children
map holds the same entries, and return the new pointer. -/
def GoalHeap.copy (h : GoalHeap) (ptr : Nat) : GoalHeap × Nat :=
  (⟨h.cells ++ [h.entries ptr]⟩, h.cells.length)

/-- One mutation of a goal: `Attach` or `Detach`. -/
inductive GoalOp where
  | attach (id : String) (vm : VM)
  | detach (id : String)

/-- Apply one mutation to the goal pointed to by `ptr`. -/
def applyOp (h : GoalHeap) (ptr : Nat) : GoalOp → GoalHeap
  | GoalOp.attach id vm => h.attach ptr id vm
  | GoalOp.detach id => h.detach ptr id

/-- Apply a sequence of mutations to the goal pointed to by `ptr`. -/
def applyOps (h : GoalHeap) (ptr : Nat) : List GoalOp → GoalHeap
  | [] => h
  | op :: rest => applyOps (applyOp h ptr op) ptr rest

/-!
JSON encoding (deploy/deployment.go).  `VM.MarshalJSON` marshals a
`map[string]interface` literal and `DeploymentGoal.MarshalJSON` marshals the
`map[string]*VM` of children; Go's `encoding/json` emits the keys of a
string-keyed map in sorted (alphabetical) order.  The model covers strings
that need no JSON escaping, which is all the claims exercise.
-/

/-- A JSON string literal for a string with no characters needing escapes. -/
def jsonQuote (s : String) : String := "\"" ++ s ++ "\""

/-- `VM.MarshalJSON`: the five-key map literal
`platform / app / type:"vm" / version / customization:null`, emitted by
`json.Marshal` with its keys in sorted order
(`app, customization, platform, type, version`). -/
def VM.marshalJSON (vm : VM) : String :=
  "\x7b\"app\":" ++ jsonQuote vm.App ++
    ",\"customization\":null,\"platform\":" ++ jsonQuote vm.Platform ++
    ",\"type\":\"vm\",\"version\":" ++ jsonQuote vm.Version ++ "\x7d"

/-- `json.Marshal` of the `map[string]*VM` children map: a JSON object with
the keys in sorted order, each value marshalled by `VM.MarshalJSON`. -/
def marshalChildren (m : List (String × VM)) : String :=
  "\x7b" ++
    String.intercalate ","
      ((sortStrings (m.map Prod.fst)).map fun k =>
        jsonQuote k ++ ":" ++
          (match assocLookup m k with
           | some vm => vm.marshalJSON
           | none => "null")) ++
  "\x7d"

/-- `DeploymentGoal.MarshalJSON`:
`fmt.Sprintf("\x7b\"type\":\"subtree\",\"children\":%s\x7d", children)`. -/
def goalMarshalJSON (m : List (String × VM)) : String :=
  "\x7b\"type\":\"subtree\",\"children\":" ++ marshalChildren m ++ "\x7d"

/-! Helper lemmas. -/

/-- After deleting `k` from a map, looking `k` up finds nothing. -/
theorem assocLookup_assocErase_self {α : Type} (m : List (String × α)) (k : String) :
    assocLookup (assocErase m k) k = none := by
  induction m with
  | nil => rfl
  | cons hd tl ih =>
    obtain ⟨k2, v⟩ := hd
    by_cases h : k2 = k
    · simpa [assocErase, h] using ih
    · simpa [assocErase, assocLookup, h] using ih

/-- Inserting at key `k` makes lookup of `k` find the inserted value. -/
theorem assocLookup_assocInsert_self {α : Type} (m : List (String × α))
    (k : String) (v : α) : assocLookup (assocInsert m k v) k = some v := by
  simp [assocInsert, assocLookup]

/-- A mutation through pointer `q` leaves the entries at any other pointer
`ptr` untouched. -/
theorem entries_applyOp_ne (h : GoalHeap) (q ptr : Nat) (hne : q ≠ ptr)
    (op : GoalOp) : (applyOp h q op).entries ptr = h.entries ptr := by
  cases op <;>
    simp [applyOp, GoalHeap.attach, GoalHeap.detach, GoalHeap.entries,
      List.getD_eq_getElem?_getD, List.getElem?_set_ne hne]

/-- A sequence of mutations through pointer `q` leaves the entries at any
other pointer `ptr` untouched. -/
theorem entries_applyOps_ne (q ptr : Nat) (hne : q ≠ ptr) (ops : List GoalOp) :
    ∀ h : GoalHeap, (applyOps h q ops).entries ptr = h.entries ptr := by
  induction ops with
  | nil => intro h; rfl
  | cons op rest ih =>
    intro h
    rw [applyOps, ih (applyOp h q op), entries_applyOp_ne h q ptr hne op]

/-! Claim theorems. -/

/-- C2: when `Spawn`'s push of the new goal-state copy fails, `Spawn` returns
the push error and the pool still holds the old goal snapshot with its old
entries; when the push succeeds, the pool's goal becomes the new copy (old
entries plus the new one) and `Spawn` returns the generated identifier. -/
theorem spawn_push_failure_keeps_old_goal (p : PoolV) (args : SpawnArgs)
    (id : String) (g : List (String × VM)) (e : Err)
    (hopen : p.mgrClosed = false) (hg : p.goal = some g) :
    p.Spawn args id (Except.error e) = some (Except.error e, p) ∧
    p.Spawn args id (Except.ok ()) =
      some (Except.ok id,
        { p with goal := some (assocInsert g id
            { Platform := args.Platform, App := args.App,
              Version := args.Version }) }) := by
  constructor <;> simp [PoolV.Spawn, hopen, hg]

/-- Witness for C2: a concrete open pool holding one instance. -/
theorem spawn_push_failure_keeps_old_goal_witness :
    PoolV.Spawn
        { mgrClosed := false, org := "o", name := "n",
          goal := some [("aa00bb11", { Platform := "p0", App := "o/a0", Version := "v0" })],
          state := some [] }
        { Platform := "p1", App := "o/a1", Version := "v1" } "cc22dd33"
        (Except.error "503 Service Unavailable") =
      some (Except.error "503 Service Unavailable",
        { mgrClosed := false, org := "o", name := "n",
          goal := some [("aa00bb11", { Platform := "p0", App := "o/a0", Version := "v0" })],
          state := some [] }) :=
  (spawn_push_failure_keeps_old_goal
    { mgrClosed := false, org := "o", name := "n",
      goal := some [("aa00bb11", { Platform := "p0", App := "o/a0", Version := "v0" })],
      state := some [] }
    { Platform := "p1", App := "o/a1", Version := "v1" } "cc22dd33"
    [("aa00bb11", { Platform := "p0", App := "o/a0", Version := "v0" })]
    "503 Service Unavailable" rfl rfl).1

/-- Concrete pool used by the C3 counterexample: open manager, one goal entry. -/
def destroyCexPool : PoolV :=
  { mgrClosed := false, org := "o", name := "n",
    goal := some [("aa00bb11", { Platform := "p1", App := "o/a1", Version := "v1" })],
    state := some [] }

/-- C3 counterexample: `Destroy` does NOT return the push result.  With a
failing push, the source discards the error (`p.goal.Push(...)` on a statement
line, its result unused) and returns `nil`, so the result is `ok`, not the
push error. -/
theorem destroy_does_not_return_push_error :
    (PoolV.Destroy destroyCexPool "aa00bb11"
        (Except.error "500 Internal Server Error")).map Prod.fst ≠
      some (Except.error "500 Internal Server Error") := by
  intro h
  simp [PoolV.Destroy, destroyCexPool] at h

/-- C3 amended: on an open manager, `Destroy` ignores the push result and
returns success regardless of the push outcome. -/
theorem destroy_returns_ok_regardless_of_push (p : PoolV) (id : String)
    (g : List (String × VM)) (pushResult : Except Err Unit)
    (hopen : p.mgrClosed = false) (hg : p.goal = some g) :
    (p.Destroy id pushResult).map Prod.fst = some (Except.ok ()) := by
  simp [PoolV.Destroy, hopen, hg]

/-- Witness for the amended C3: the counterexample pool with a failing push. -/
theorem destroy_returns_ok_regardless_of_push_witness :
    (PoolV.Destroy destroyCexPool "aa00bb11"
        (Except.error "500 Internal Server Error")).map Prod.fst =
      some (Except.ok ()) :=
  destroy_returns_ok_regardless_of_push destroyCexPool "aa00bb11"
    [("aa00bb11", { Platform := "p1", App := "o/a1", Version := "v1" })]
    (Except.error "500 Internal Server Error") rfl rfl

/-- C4: after `Destroy(id)` returns on an open manager, the pool's in-memory
goal state no longer contains `id`, whatever the push outcome: the detach
happens before the push and is not rolled back. -/
theorem destroy_detaches_regardless_of_push (p : PoolV) (id : String)
    (g : List (String × VM)) (pushResult : Except Err Unit)
    (hopen : p.mgrClosed = false) (hg : p.goal = some g) :
    p.Destroy id pushResult =
      some (Except.ok (), { p with goal := some (assocErase g id) }) ∧
    assocLookup (assocErase g id) id = none :=
  ⟨by simp [PoolV.Destroy, hopen, hg], assocLookup_assocErase_self g id⟩

/-- Witness for C4: destroying the one instance of a concrete pool under a
failing push leaves a goal without it. -/
theorem destroy_detaches_regardless_of_push_witness :
    PoolV.Destroy destroyCexPool "aa00bb11" (Except.error "502 Bad Gateway") =
      some (Except.ok (),
        { mgrClosed := false, org := "o", name := "n", goal := some [],
          state := some [] }) :=
  (destroy_detaches_regardless_of_push destroyCexPool "aa00bb11"
    [("aa00bb11", { Platform := "p1", App := "o/a1", Version := "v1" })]
    (Except.error "502 Bad Gateway") rfl rfl).1

/-- C5: when `Update` hits its timeout branch it fails with the timeout error
and the pool — its observed state included — is exactly as before the call. -/
theorem update_timeout_leaves_state_unchanged (p : PoolV)
    (hopen : p.mgrClosed = false) :
    p.Update FetchOutcome.timeout = (Except.error errCleanupTimedOut, p) := by
  simp [PoolV.Update, hopen]

/-- Witness for C5: a concrete open pool with a nonempty observed state. -/
theorem update_timeout_leaves_state_unchanged_witness :
    PoolV.Update
        { mgrClosed := false, org := "o", name := "n", goal := some [],
          state := some [("aa00bb11", InstanceStatus.zero)] }
        FetchOutcome.timeout =
      (Except.error errCleanupTimedOut,
        { mgrClosed := false, org := "o", name := "n", goal := some [],
          state := some [("aa00bb11", InstanceStatus.zero)] }) :=
  update_timeout_leaves_state_unchanged
    { mgrClosed := false, org := "o", name := "n", goal := some [],
      state := some [("aa00bb11", InstanceStatus.zero)] } rfl

/-- C9: `NewPool` on an open manager registers the pool in the registry
before the remote create; when the create fails, the error is returned but
the pool is still registered. -/
theorem newPool_stays_registered_on_create_failure (m : ManagerM)
    (org name : String) (e : Err) (hopen : m.closed = false) :
    (m.NewPool org name (Except.error e)).1 = Except.error e ∧
    assocLookup (m.NewPool org name (Except.error e)).2.pools
        (poolKey org name) =
      some { mgrClosed := false, org := org, name := name,
             goal := some [], state := some [] } := by
  constructor <;> simp [ManagerM.NewPool, hopen, assocLookup_assocInsert_self]

/-- Witness for C9: an open manager with an empty registry and a failing
remote create. -/
theorem newPool_stays_registered_on_create_failure_witness :
    (ManagerM.NewPool { closed := false, pools := [] } "o" "n"
        (Except.error "403 Forbidden")).1 = Except.error "403 Forbidden" ∧
    assocLookup (ManagerM.NewPool { closed := false, pools := [] } "o" "n"
        (Except.error "403 Forbidden")).2.pools (poolKey "o" "n") =
      some { mgrClosed := false, org := "o", name := "n",
             goal := some [], state := some [] } :=
  newPool_stays_registered_on_create_failure
    { closed := false, pools := [] } "o" "n" "403 Forbidden" rfl

/-- C10: after a successful `Pool.Close`, both state pointers are `nil`, and
`Status` / `Instances` on the torn-down pool dereference them — the fault
`none` — instead of failing with `Closed` or `InstanceNotFound`. -/
theorem closed_pool_status_and_instances_fault (p : PoolV) :
    (p.Close (DeleteOutcome.done (Except.ok ()))).1 = Except.ok () ∧
    (p.Close (DeleteOutcome.done (Except.ok ()))).2.goal = none ∧
    (p.Close (DeleteOutcome.done (Except.ok ()))).2.state = none ∧
    (∀ id, (p.Close (DeleteOutcome.done (Except.ok ()))).2.Status id = none) ∧
    (p.Close (DeleteOutcome.done (Except.ok ()))).2.Instances = none := by
  simp [PoolV.Close, PoolV.Status, PoolV.Instances]

/-- Pool used by the C1 counterexample: its observed state maps `"a1"` to the
zero status (as parsing `"vm": \x7b\x7d` yields), and its goal state is empty. -/
def statusCexPool : PoolV :=
  { mgrClosed := false, org := "o", name := "n", goal := some [],
    state := some [("a1", InstanceStatus.zero)] }

/-- C1 counterexample: "returns an empty (zero) Instance Status iff `id` is
present in the Goal State only" fails right-to-left nowhere, but
left-to-right here: for `statusCexPool`, `Status "a1"` returns the zero
status (it is the parsed observed status), yet `"a1"` is not in the goal
state at all. -/
theorem status_empty_iff_goal_only_fails :
    ¬ (statusCexPool.Status "a1" = some (Except.ok InstanceStatus.zero) ↔
        (assocLookup ([] : List (String × VM)) "a1").isSome = true ∧
          assocLookup [("a1", InstanceStatus.zero)] "a1" = none) := by
  intro h
  have h2 := h.mp rfl
  simp [assocLookup] at h2

/-- C1 amended: with both state pointers live, `Status(id)` fails with
`ErrInstanceNotInPool` iff `id` is in neither observed nor goal state; it
returns the stored (parsed) status iff `id` is in the observed state; it
returns the zero status if `id` is in the goal state only; and conversely a
zero-status return means `id` is in the goal state only, or the observed
state itself maps `id` to the zero status. -/
theorem status_lookup_semantics (p : PoolV) (id : String)
    (st : List (String × InstanceStatus)) (g : List (String × VM))
    (hst : p.state = some st) (hg : p.goal = some g) :
    (p.Status id = some (Except.error errInstanceNotInPool) ↔
      assocLookup st id = none ∧ assocLookup g id = none) ∧
    ((∃ v, assocLookup st id = some v ∧ p.Status id = some (Except.ok v)) ↔
      (assocLookup st id).isSome = true) ∧
    (assocLookup st id = none → (assocLookup g id).isSome = true →
      p.Status id = some (Except.ok InstanceStatus.zero)) ∧
    (p.Status id = some (Except.ok InstanceStatus.zero) →
      (assocLookup st id = none ∧ (assocLookup g id).isSome = true) ∨
        assocLookup st id = some InstanceStatus.zero) := by
  rcases hv : assocLookup st id with _ | v
  · rcases hw : assocLookup g id with _ | w
    · simp [PoolV.Status, hst, hg, hv, hw, errInstanceNotInPool]
    · simp [PoolV.Status, hst, hg, hv, hw, errInstanceNotInPool]
  · refine ⟨?_, ?_, ?_, ?_⟩
    · simp [PoolV.Status, hst, hv, errInstanceNotInPool]
    · simp [PoolV.Status, hst, hv]
    · intro h0 _
      exact Option.noConfusion h0
    · intro hz
      simp only [PoolV.Status, hst, hv] at hz
      have hvz : v = InstanceStatus.zero := by simpa using hz
      right
      rw [hvz]

/-- Concrete parsed status used by the C1 witness. -/
def wStatus : InstanceStatus :=
  { Deployer := "d", App := "o/a1", Version := "v1", Hostname := "h",
    IP := "1.2.3.4", URLs := ["http://h"] }

/-- Concrete specification used by the C1 witness. -/
def wVM : VM := { Platform := "p1", App := "o/a1", Version := "v1" }

/-- Concrete pool used by the C1 witness: `"a1"` observed, `"b2"` in goal. -/
def wStatePool : PoolV :=
  { mgrClosed := false, org := "o", name := "n", goal := some [("b2", wVM)],
    state := some [("a1", wStatus)] }

/-- Witness for the amended C1: the pool `wStatePool` probed at `"a1"`. -/
theorem status_lookup_semantics_witness :
    (wStatePool.Status "a1" = some (Except.error errInstanceNotInPool) ↔
      assocLookup [("a1", wStatus)] "a1" = none ∧
        assocLookup [("b2", wVM)] "a1" = none) ∧
    ((∃ v, assocLookup [("a1", wStatus)] "a1" = some v ∧
          wStatePool.Status "a1" = some (Except.ok v)) ↔
      (assocLookup [("a1", wStatus)] "a1").isSome = true) ∧
    (assocLookup [("a1", wStatus)] "a1" = none →
      (assocLookup [("b2", wVM)] "a1").isSome = true →
      wStatePool.Status "a1" = some (Except.ok InstanceStatus.zero)) ∧
    (wStatePool.Status "a1" = some (Except.ok InstanceStatus.zero) →
      (assocLookup [("a1", wStatus)] "a1" = none ∧
        (assocLookup [("b2", wVM)] "a1").isSome = true) ∨
        assocLookup [("a1", wStatus)] "a1" = some InstanceStatus.zero) :=
  status_lookup_semantics wStatePool "a1" [("a1", wStatus)] [("b2", wVM)]
    rfl rfl

/-- C6: `Copy` yields an independent snapshot with the same entries, and no
sequence of `Attach`/`Detach` mutations applied through the copy's pointer
ever changes the entries of the original goal. -/
theorem copy_mutations_never_affect_original (h : GoalHeap) (ptr : Nat)
    (hlt : ptr < h.cells.length) (ops : List GoalOp) :
    (h.copy ptr).1.entries (h.copy ptr).2 = h.entries ptr ∧
    (applyOps (h.copy ptr).1 (h.copy ptr).2 ops).entries ptr =
      h.entries ptr := by
  have hne : h.cells.length ≠ ptr := (Nat.ne_of_lt hlt).symm
  have hcopy : (h.copy ptr).1.entries ptr = h.entries ptr := by
    simp only [GoalHeap.copy, GoalHeap.entries]
    exact List.getD_append _ _ _ _ hlt
  constructor
  · show GoalHeap.entries ⟨h.cells ++ [h.entries ptr]⟩ h.cells.length =
      h.entries ptr
    simp only [GoalHeap.entries]
    rw [List.getD_append_right _ _ _ _ (le_refl _)]
    simp
  · rw [show (h.copy ptr).2 = h.cells.length from rfl,
      entries_applyOps_ne h.cells.length ptr hne ops (h.copy ptr).1, hcopy]

/-- Witness for C6: a one-cell heap, copied, then mutated by an attach of
`"b2"` followed by a detach of `"a1"`. -/
theorem copy_mutations_never_affect_original_witness :
    ((GoalHeap.mk [[("a1", wVM)]]).copy 0).1.entries
        ((GoalHeap.mk [[("a1", wVM)]]).copy 0).2 =
      (GoalHeap.mk [[("a1", wVM)]]).entries 0 ∧
    (applyOps ((GoalHeap.mk [[("a1", wVM)]]).copy 0).1
        ((GoalHeap.mk [[("a1", wVM)]]).copy 0).2
        [GoalOp.attach "b2" wVM, GoalOp.detach "a1"]).entries 0 =
      (GoalHeap.mk [[("a1", wVM)]]).entries 0 :=
  copy_mutations_never_affect_original (GoalHeap.mk [[("a1", wVM)]]) 0
    (by decide) [GoalOp.attach "b2" wVM, GoalOp.detach "a1"]

/-- The specification entry of the C7 round-trip claim. -/
def vmC7 : VM := { Platform := "p1", App := "org/app", Version := "v1" }

/-- C7 counterexample: the encoder does not produce the claim's exact
document.  Go's `json.Marshal` emits the keys of the `map[string]interface`
literal in sorted order (`app, customization, platform, type, version`), not
in the claim's order (`platform, app, type, version, customization`). -/
theorem goal_marshal_not_claimed_document :
    goalMarshalJSON [("a1", vmC7)] ≠
      "\x7b\"type\":\"subtree\",\"children\":\x7b\"a1\":\x7b\"platform\":\"p1\",\"app\":\"org/app\",\"type\":\"vm\",\"version\":\"v1\",\"customization\":null\x7d\x7d\x7d" := by
  decide

/-- C7 amended: encoding the one-entry goal state produces the claimed
document with its object keys in Go's sorted order — the same fields, with
`"type":"vm"` and `"customization":null` supplied by the encoder. -/
theorem goal_marshal_single_entry_document :
    goalMarshalJSON [("a1", vmC7)] =
      "\x7b\"type\":\"subtree\",\"children\":\x7b\"a1\":\x7b\"app\":\"org/app\",\"customization\":null,\"platform\":\"p1\",\"type\":\"vm\",\"version\":\"v1\"\x7d\x7d\x7d" := by
  decide

/-- A failing delete outcome makes `Pool.Close` return exactly that error,
leaving the pool untouched. -/
theorem poolClose_error_of_deleteErr (p : PoolV) (o : DeleteOutcome) (e : Err)
    (he : deleteErr o = some e) : PoolV.Close p o = (Except.error e, p) := by
  cases o with
  | timeout =>
    simp only [deleteErr, Option.some.injEq] at he
    subst he; rfl
  | done r =>
    cases r with
    | error e2 =>
      simp only [deleteErr, Option.some.injEq] at he
      subst he; rfl
    | ok _ => simp [deleteErr] at he

/-- A successful delete outcome makes `Pool.Close` succeed and tear the pool
down. -/
theorem poolClose_ok_of_deleteErr (p : PoolV) (o : DeleteOutcome)
    (he : deleteErr o = none) :
    PoolV.Close p o = (Except.ok (), { p with goal := none, state := none }) := by
  cases o with
  | timeout => simp [deleteErr] at he
  | done r =>
    cases r with
    | error e2 => simp [deleteErr] at he
    | ok u => cases u; rfl

/-- The close loop walks the snapshot only up to the first failing pool: it
returns that pool's error, erases exactly the earlier (successfully closed)
pools from the registry, and the attempted keys end at the failing pool. -/
theorem closeLoop_stops_at_first_error (outcome : String → DeleteOutcome)
    (k : String) (p : PoolV) (e : Err) (hk : deleteErr (outcome k) = some e) :
    ∀ pre : List (String × PoolV),
      (∀ k2 ∈ pre.map Prod.fst, deleteErr (outcome k2) = none) →
      ∀ (post registry : List (String × PoolV)) (att : List String),
      closeLoop outcome (pre ++ (k, p) :: post) registry att =
        (Except.error e, (pre.map Prod.fst).foldl assocErase registry,
          att ++ pre.map Prod.fst ++ [k]) := by
  intro pre
  induction pre with
  | nil =>
    intro _ post registry att
    simp only [List.nil_append, List.map_nil, List.foldl_nil, List.append_nil]
    rw [closeLoop, poolClose_error_of_deleteErr p _ e hk]
  | cons hd tl ih =>
    obtain ⟨k2, p2⟩ := hd
    intro hpre post registry att
    have hk2 : deleteErr (outcome k2) = none := hpre k2 (by simp)
    have htl : ∀ k3 ∈ tl.map Prod.fst, deleteErr (outcome k3) = none := by
      intro k3 hk3
      exact hpre k3 (by simp [hk3])
    rw [List.cons_append, closeLoop, poolClose_ok_of_deleteErr p2 _ hk2,
      ih htl post (assocErase registry k2) (att ++ [k2])]
    simp

/-- C8 amended: when the `pre` pools all close successfully and pool `k`
fails, `Manager.Close` returns `k`'s error immediately: the attempted closes
end at `k` — the pools after `k` in the snapshot are never attempted — and
only the `pre` pools leave the registry. -/
theorem manager_close_stops_at_first_error (m : ManagerM)
    (outcome : String → DeleteOutcome) (pre : List (String × PoolV))
    (k : String) (p : PoolV) (post : List (String × PoolV)) (e : Err)
    (hm : m.pools = pre ++ (k, p) :: post)
    (hpre : ∀ k2 ∈ pre.map Prod.fst, deleteErr (outcome k2) = none)
    (hk : deleteErr (outcome k) = some e) :
    (m.Close outcome).1 = Except.error e ∧
    (m.Close outcome).2.2 = pre.map Prod.fst ++ [k] ∧
    (m.Close outcome).2.1.pools =
      (pre.map Prod.fst).foldl assocErase m.pools := by
  have hloop := closeLoop_stops_at_first_error outcome k p e hk pre hpre post
    (pre ++ (k, p) :: post) []
  simp only [ManagerM.Close, hm, hloop]
  simp

/-- Two-pool fixtures for C8. -/
def poolA : PoolV :=
  { mgrClosed := false, org := "o", name := "a", goal := some [],
    state := some [] }

/-- Two-pool fixtures for C8. -/
def poolB : PoolV :=
  { mgrClosed := false, org := "o", name := "b", goal := some [],
    state := some [] }

/-- A manager owning `poolA` and `poolB`. -/
def cexManager : ManagerM :=
  { closed := false, pools := [("o::a", poolA), ("o::b", poolB)] }

/-- Delete outcomes where `poolA`'s delete fails and every other succeeds. -/
def cexOutcome : String → DeleteOutcome := fun k =>
  if k = "o::a" then DeleteOutcome.done (Except.error "boom")
  else DeleteOutcome.done (Except.ok ())

/-- C8 counterexample: with the first pool's close failing, `Manager.Close`
returns the error but does NOT attempt to close the remaining registered
pool: only `"o::a"` is attempted, and `poolB` stays registered. -/
theorem manager_close_does_not_attempt_remaining :
    (cexManager.Close cexOutcome).1 = Except.error "boom" ∧
    (cexManager.Close cexOutcome).2.2 ≠ ["o::a", "o::b"] ∧
    assocLookup (cexManager.Close cexOutcome).2.1.pools "o::b" = some poolB := by
  refine ⟨rfl, ?_, rfl⟩
  decide

/-- Witness for the amended C8: `cexManager` under `cexOutcome`, with
`pre = []`, failing pool `"o::a"`, and `poolB` after it. -/
theorem manager_close_stops_at_first_error_witness :
    (cexManager.Close cexOutcome).1 = Except.error "boom" ∧
    (cexManager.Close cexOutcome).2.2 =
      ([] : List (String × PoolV)).map Prod.fst ++ ["o::a"] ∧
    (cexManager.Close cexOutcome).2.1.pools =
      (([] : List (String × PoolV)).map Prod.fst).foldl assocErase
        cexManager.pools :=
  manager_close_stops_at_first_error cexManager cexOutcome [] "o::a" poolA
    [("o::b", poolB)] "boom" rfl (by simp) (by decide)

end SisatechApi
